import Mathlib

/-!
Verification model of the OpenSplat parameter-benchmark runner
(`opensplat_param_test_quick.py`, `quick_test.py`, `compare_results.py`).

The Python code is shallowly embedded: stateful interactions with the
operating system (subprocess execution, wall-clock measurement, file-size
queries, directory creation) are passed in explicitly as environment data,
and every Python function of interest becomes a total Lean function over
that data.  Machine integers are modelled by `Nat`/`Int`, wall-clock
durations by `Rat` (the code never computes with them beyond recording),
and byte strings by `List Nat`.
-/

/-! ## Generic string / list helpers mirroring Python primitives -/

/-- Contiguous-subsequence test on lists: `listContainsSeg pat l` models the
Python expression `pat in l` for `bytes`/`str` operands (substring
containment).  An empty pattern is contained in everything, as in Python. -/
def listContainsSeg {α : Type} [DecidableEq α] (pat l : List α) : Bool :=
  (List.range (l.length + 1)).any fun i => decide ((l.drop i).take pat.length = pat)

/-- Model of Python `pat in s` for strings (substring containment). -/
def strContainsSub (pat s : String) : Bool :=
  listContainsSeg pat.toList s.toList

/-- The whitespace characters recognised by Python `str.split()` (ASCII
space, tab, newline, carriage return, vertical tab, form feed). -/
def pyIsSpace (c : Char) : Bool :=
  c = ' ' || c = '\t' || c = '\n' || c = '\r' || c = '\x0b' || c = '\x0c'

/-- Accumulator-based worker for `pySplitChars`. -/
def pySplitCharsAux : List Char → List Char → List (List Char)
  | [], acc => if acc = [] then [] else [acc.reverse]
  | c :: rest, acc =>
    if pyIsSpace c then
      if acc = [] then pySplitCharsAux rest []
      else acc.reverse :: pySplitCharsAux rest []
    else pySplitCharsAux rest (c :: acc)

/-- Model of Python `str.split()` with no arguments: split on runs of
whitespace, dropping empty tokens and ignoring leading/trailing blanks. -/
def pySplitChars (cs : List Char) : List (List Char) :=
  pySplitCharsAux cs []

/-- Decimal value of an unbroken run of ASCII digits; `none` when the list
is empty or holds a non-digit. -/
def digitsVal (cs : List Char) : Option Nat :=
  if cs = [] then none
  else
    cs.foldl
      (fun acc c =>
        match acc with
        | none => none
        | some n => if '0' ≤ c ∧ c ≤ '9' then some (n * 10 + (c.toNat - 48)) else none)
      (some 0)

/-- Model of Python `int(...)` applied to a decimal token: an optional sign
followed by at least one digit yields a value, anything else raises
(`none` here). -/
def pyInt (cs : List Char) : Option Int :=
  match cs with
  | '-' :: rest => (digitsVal rest).map fun n => -(n : Int)
  | '+' :: rest => (digitsVal rest).map fun n => (n : Int)
  | _ => (digitsVal cs).map fun n => (n : Int)

/-- Model of Python `s.startswith(pat)`. -/
def pyStartsWith (pat s : String) : Bool :=
  decide (s.toList.take pat.toList.length = pat.toList)

/-- Model of Python `s.endswith(pat)`. -/
def pyEndsWith (pat s : String) : Bool :=
  decide (s.toList.drop (s.toList.length - pat.toList.length) = pat.toList)

/-- Model of POSIX `os.path.join(a, b)`: an absolute second component
replaces the first; otherwise a separator is inserted unless the first
component is empty or already ends with one. -/
def path_join (a b : String) : String :=
  if pyStartsWith "/" b then b
  else if a = "" then b
  else if pyEndsWith "/" a then a ++ b
  else a ++ "/" ++ b

/-! ## Data model of `opensplat_param_test_quick.py` -/

/-- `TestCase`: one experiment configuration.  `params` is the ordered
flag-name → value mapping (Python dicts preserve insertion order). -/
structure TestCase where
  name : String
  description : String
  params : List (String × String)
deriving DecidableEq

/-- `TestCase.get_param_str`: renders `params` as `--k v` pairs joined by
single spaces; a key already starting with `-` is passed through as-is. -/
def TestCase.get_param_str (tc : TestCase) : String :=
  String.intercalate " "
    (tc.params.map fun kv =>
      if pyStartsWith "-" kv.1 then kv.1 ++ " " ++ kv.2
      else "--" ++ kv.1 ++ " " ++ kv.2)

/-- `TestResult`: the trial outcome record, mirroring the dataclass field
for field (`duration` is the recorded wall-clock figure, modelled in ℚ). -/
structure TestResult where
  test_case : TestCase
  success : Bool
  duration : Rat
  output_file : String
  gpu_id : Nat
  error_msg : Option String
deriving DecidableEq

/-- Constructor/configuration state of `OpenSplatTester` (`__init__`
arguments stored on `self`). -/
structure Config where
  opensplat_path : String
  data_path : String
  output_dir : String
  max_workers : Nat
  timeout : Nat
deriving DecidableEq

/-- Everything the operating system decides about one trial, passed in
explicitly: how `subprocess.run` ends, the wall-clock durations measured at
the three `time.time() - start_time` sites, and the result of the
`os.path.getsize(output_file)` call made on the success path. -/
inductive ProcBeh where
  /-- `subprocess.run` returned normally with this `returncode`/`stderr`. -/
  | completes (returncode : Int) (stderr : String)
  /-- `subprocess.run` raised `subprocess.TimeoutExpired`. -/
  | timesOut
  /-- Launch-level failure: `subprocess.run` raised some other exception
  (tool missing, permission denied, ...) carrying message `msg`. -/
  | raisesLaunch (msg : String)
deriving DecidableEq

/-- Environment data for one `run_single_test` invocation. -/
structure TrialBeh where
  proc : ProcBeh
  /-- Elapsed time measured right after `subprocess.run` returns. -/
  dur : Rat
  /-- Elapsed time measured inside the `TimeoutExpired` handler. -/
  durTimeout : Rat
  /-- Elapsed time measured inside the generic `except Exception` handler. -/
  durExc : Rat
  /-- Result of `os.path.getsize(output_file)`: `ok size`, or `error msg`
  when the call raises (e.g. the artifact file does not exist). -/
  sizeQuery : Except String Nat

/-- Command line built by `run_single_test` before spawning the tool:
`[opensplat_path, "-o", output_file] + get_param_str().split() + [data_path]`. -/
def build_cmd (cfg : Config) (tc : TestCase) (output_file : String) : List String :=
  [cfg.opensplat_path, "-o", output_file]
    ++ (pySplitChars tc.get_param_str.toList).map (fun l => String.mk l)
    ++ [cfg.data_path]

/-- `OpenSplatTester.run_single_test`.  The `try`/`except` structure of the
source maps onto the case split on `b.proc`; on a zero return code the code
first queries the artifact size (for the progress line) — if that query
raises, control reaches the generic `except Exception` handler and a failed
result is returned.  The function is total: no branch escapes without
producing a `TestResult`. -/
def run_single_test (cfg : Config) (test_case : TestCase) (gpu_id : Nat)
    (b : TrialBeh) : TestResult :=
  let output_file := path_join cfg.output_dir (test_case.name ++ ".ply")
  match b.proc with
  | ProcBeh.completes returncode stderr =>
    if returncode = 0 then
      match b.sizeQuery with
      | Except.ok _ =>
        { test_case := test_case, success := true, duration := b.dur,
          output_file := output_file, gpu_id := gpu_id, error_msg := none }
      | Except.error e =>
        { test_case := test_case, success := false, duration := b.durExc,
          output_file := output_file, gpu_id := gpu_id, error_msg := some e }
    else
      let error_msg := if stderr ≠ "" then stderr else "Unknown error"
      { test_case := test_case, success := false, duration := b.dur,
        output_file := output_file, gpu_id := gpu_id, error_msg := some error_msg }
  | ProcBeh.timesOut =>
    { test_case := test_case, success := false, duration := b.durTimeout,
      output_file := output_file, gpu_id := gpu_id, error_msg := some "Timeout" }
  | ProcBeh.raisesLaunch e =>
    { test_case := test_case, success := false, duration := b.durExc,
      output_file := output_file, gpu_id := gpu_id, error_msg := some e }

/-- Default `TestCase` used to realise Python's total list indexing. -/
def defaultCase : TestCase := { name := "", description := "", params := [] }

/-- Default `TestResult` used with `List.getD`. -/
def defaultResult : TestResult :=
  { test_case := defaultCase, success := false, duration := 0,
    output_file := "", gpu_id := 0, error_msg := none }

/-! ## `OpenSplatTester.run_all_tests` (the scheduler)

Concurrency is modelled by making the completion order explicit: in the
pooled branch the source collects results with `as_completed`, i.e. in
some permutation `order` of the submission indices.  A thread-level fault
(the `except Exception` around `future.result()`, which fires when the
executor invocation itself raised past `run_single_test`'s handlers) is
modelled by `fault i = some msg`; the serial branch has no such handler in
the source, and `run_single_test` itself is total, so `fault` only
participates in the pooled branch. -/

/-- The round-robin device table `[i % self.max_workers for i in range(len(test_cases))]`. -/
def gpu_assignments (n max_workers : Nat) : List Nat :=
  (List.range n).map fun i => i % max_workers

/-- Validity check performed by `ThreadPoolExecutor.__init__`: a pool size
of zero (or less) raises `ValueError`. -/
def make_pool (max_workers : Nat) : Except String Unit :=
  if max_workers = 0 then Except.error "max_workers must be greater than 0"
  else Except.ok ()

/-- The serial branch of `run_all_tests` (`self.max_workers <= 1`): each
test case is run in input order on device slot 0. -/
def run_serial (cfg : Config) (specs : List TestCase) (beh : Nat → TrialBeh) :
    List TestResult :=
  (List.range specs.length).map fun i =>
    run_single_test cfg (specs.getD i defaultCase) 0 (beh i)

/-- Outcome collected for submission index `i` in the pooled branch:
either the `TestResult` returned by `run_single_test` (invoked with the
pre-assigned slot `gpu_assignments[i]`), or — when `future.result()`
raised — the fallback `TestResult(test_case, False, 0, "", gpu_assignments[index], str(e))`. -/
def parallel_outcome (cfg : Config) (specs : List TestCase) (beh : Nat → TrialBeh)
    (fault : Nat → Option String) (i : Nat) : TestResult :=
  match fault i with
  | some e =>
    { test_case := specs.getD i defaultCase, success := false, duration := 0,
      output_file := "", gpu_id := (gpu_assignments specs.length cfg.max_workers).getD i 0,
      error_msg := some e }
  | none =>
    run_single_test cfg (specs.getD i defaultCase)
      ((gpu_assignments specs.length cfg.max_workers).getD i 0) (beh i)

/-- The pooled branch of `run_all_tests`: all trials are submitted up
front and outcomes are appended in completion order `order`. -/
def run_parallel (cfg : Config) (specs : List TestCase) (beh : Nat → TrialBeh)
    (fault : Nat → Option String) (order : List Nat) : List TestResult :=
  order.map (parallel_outcome cfg specs beh fault)

/-- `OpenSplatTester.run_all_tests`: serial when `max_workers <= 1`,
otherwise a `ThreadPoolExecutor(max_workers)` is constructed (its pool-size
validation modelled by `make_pool`) and all trials are submitted to it. -/
def run_all_tests (cfg : Config) (specs : List TestCase) (beh : Nat → TrialBeh)
    (fault : Nat → Option String) (order : List Nat) :
    Except String (List TestResult) :=
  if cfg.max_workers ≤ 1 then
    Except.ok (run_serial cfg specs beh)
  else
    match make_pool cfg.max_workers with
    | Except.error e => Except.error e
    | Except.ok _ => Except.ok (run_parallel cfg specs beh fault order)

/-- `OpenSplatTester.__init__`: stores the configuration and calls
`os.makedirs(output_dir, exist_ok=True)`; the outcome of that filesystem
call is passed in as `mkdir`.  A raising `makedirs` propagates out of the
constructor (the only failure the constructor can produce). -/
def tester_init (opensplat_path data_path output_dir : String)
    (max_workers timeout : Nat) (mkdir : Except String Unit) :
    Except String Config :=
  match mkdir with
  | Except.error e => Except.error e
  | Except.ok _ =>
    Except.ok
      { opensplat_path := opensplat_path, data_path := data_path,
        output_dir := output_dir, max_workers := max_workers, timeout := timeout }

/-- Error detail rendered for a failed trial by `generate_report`:
`r.error_msg[:500] if r.error_msg else 'Unknown'` (a `None` or empty
message is falsy in Python). -/
def report_error_detail (r : TestResult) : String :=
  match r.error_msg with
  | none => "Unknown"
  | some e => if e ≠ "" then String.mk (e.toList.take 500) else "Unknown"

/-! ## `compare_results.parse_ply_header`

The file handle is modelled by the list of bytes not yet consumed;
`readline` returns everything up to and including the next `\n` byte (or
the remainder at end of file, and `[]` once the file is exhausted).  The
`while True` loop of the source is given explicit fuel: `headerLoop fuel`
returns `some header` when the loop exits by one of its two `break`s
within `fuel` iterations and `none` when it is still running after `fuel`
iterations — so `(∀ fuel, headerLoop fuel rem hdr = none)` states that the
loop never terminates on that input. -/

/-- Model of `f.readline()` on the remaining bytes of a binary file. -/
def readline (remaining : List Nat) : List Nat × List Nat :=
  match remaining.findIdx? (fun b => b = 10) with
  | some k => (remaining.take (k + 1), remaining.drop (k + 1))
  | none => (remaining, [])

/-- The bytes of `b"end_header"`. -/
def endHeaderBytes : List Nat := [101, 110, 100, 95, 104, 101, 97, 100, 101, 114]

/-- Fuel-indexed body of the header-scanning loop:
`header += f.readline()`, break on `b"end_header" in line` or on
`len(header) > 10000`. -/
def headerLoop (fuel : Nat) (remaining header : List Nat) : Option (List Nat) :=
  match fuel with
  | 0 => none
  | fuel + 1 =>
    let step := readline remaining
    let header' := header ++ step.1
    if listContainsSeg endHeaderBytes step.1 then some header'
    else if 10000 < header'.length then some header'
    else headerLoop fuel step.2 header'

/-- Model of `bytes.decode('ascii', errors='ignore')`: bytes outside the
ASCII range are dropped, the rest become characters. -/
def decodeAscii (bs : List Nat) : List Char :=
  (bs.filter fun b => b < 128).map Char.ofNat

/-- The characters of `"element vertex"`. -/
def elemVertexChars : List Char := "element vertex".toList

/-- Model of Python `line.startswith(pat)`. -/
def lineStartsWith (pat l : List Char) : Bool :=
  decide (l.take pat.length = pat)

/-- Count extracted from a matching header line: `int(line.split()[2])`,
with any `IndexError`/`ValueError` mapped to `none`. -/
def vertexCountOfLine (l : List Char) : Option Int :=
  match (pySplitChars l).get? 2 with
  | none => none
  | some p => pyInt p

/-- The `element vertex` scan over the decoded header: the source returns
`int(parts[2])` for the first line starting with `element vertex`, and 0
when no line matches or when that conversion raises (the surrounding
`except Exception: pass` then falls through to `return 0`). -/
def findCount (header : List Nat) : Int :=
  match (List.splitOn '\n' (decodeAscii header)).find? (lineStartsWith elemVertexChars) with
  | none => 0
  | some l => (vertexCountOfLine l).getD 0

/-- `compare_results.parse_ply_header`, fuel-indexed through `headerLoop`:
`some count` when the scanning loop exits within `fuel` iterations (the
count then being what the source returns), `none` when the loop is still
running after `fuel` iterations. -/
def parse_ply_header (fuel : Nat) (file : List Nat) : Option Int :=
  (headerLoop fuel file []).map findCount

/-- ASCII bytes of a string, for writing concrete file contents. -/
def asciiBytes (s : String) : List Nat := s.toList.map Char.toNat

/-! ## `compare_results.print_comparison` grouping

`ModelInfo` mirrors the dataclass.  Each named category of the `groups`
dict is an independent filter over `models` testing `key in m.name`
(substring containment); the `综合配置` category tests membership of the
name in a fixed list; the catch-all `其他` category is rebuilt as the
models whose `id` landed in no other category — since every category
filter depends only on the model value, that equals the models matching no
rule. -/

/-- `ModelInfo` dataclass of `compare_results.py`. -/
structure ModelInfo where
  name : String
  file_path : String
  size_mb : Rat
  num_points : Int
deriving DecidableEq

/-- The substring keys of the seven parameter-family categories, in the
order they appear in the `groups` dict. -/
def groupKeys : List String :=
  ["iters_", "scale_", "sh_", "ssim_", "refine_", "grad_", "size_"]

/-- The explicit name list of the `综合配置` category. -/
def comboNames : List String := ["baseline", "fast_preview", "quality"]

/-- One parameter-family category: `[m for m in models if key in m.name]`. -/
def keyGroup (key : String) (models : List ModelInfo) : List ModelInfo :=
  models.filter fun m => strContainsSub key m.name

/-- The `综合配置` category: `[m for m in models if m.name in [...]]`. -/
def comboGroup (models : List ModelInfo) : List ModelInfo :=
  models.filter fun m => comboNames.contains m.name

/-- Whether any non-catch-all category rule matches the model. -/
def matchesAnyRule (m : ModelInfo) : Bool :=
  groupKeys.any (fun k => strContainsSub k m.name) || comboNames.contains m.name

/-- The catch-all `其他` category: models assigned to no other category. -/
def otherGroup (models : List ModelInfo) : List ModelInfo :=
  models.filter fun m => !(matchesAnyRule m)

/-! ## Derived notions and concrete fixtures used in the statements -/

/-- The observable identity of an outcome for cross-pool comparison: the
trial's name together with its success/failure determination. -/
def outcomeKey (r : TestResult) : String × Bool :=
  (r.test_case.name, r.success)

/-- A configuration equal to `cfg` except for the worker-pool size. -/
def withWorkers (cfg : Config) (w : Nat) : Config :=
  { opensplat_path := cfg.opensplat_path, data_path := cfg.data_path,
    output_dir := cfg.output_dir, max_workers := w, timeout := cfg.timeout }

/-- The `baseline` test case of `define_test_cases`. -/
def tc0 : TestCase :=
  { name := "baseline", description := "基准配置", params := [("num-iters", "1000")] }

/-- The `scale_2` test case of `define_test_cases`. -/
def tcA : TestCase :=
  { name := "scale_2", description := "1/2 分辨率",
    params := [("downscale-factor", "2"), ("num-iters", "1000")] }

/-- The default tester configuration (serial, one-hour timeout). -/
def cfg0 : Config :=
  { opensplat_path := "./opensplat", data_path := "./banana",
    output_dir := "./output", max_workers := 1, timeout := 3600 }

/-- The default configuration with a pool of two workers. -/
def cfg2 : Config := withWorkers cfg0 2

/-- A trial whose subprocess exits with status 0 and whose artifact is
present (size query succeeds). -/
def bOk : TrialBeh :=
  { proc := ProcBeh.completes 0 "", dur := 5, durTimeout := 0, durExc := 0,
    sizeQuery := Except.ok 42 }

/-- A trial whose subprocess exceeds the timeout. -/
def bTimeout : TrialBeh :=
  { proc := ProcBeh.timesOut, dur := 0, durTimeout := 3600, durExc := 0,
    sizeQuery := Except.error "unused" }

/-- A trial whose launch fails before the subprocess runs. -/
def bLaunch : TrialBeh :=
  { proc := ProcBeh.raisesLaunch "[Errno 2] No such file or directory: './opensplat'",
    dur := 0, durTimeout := 0, durExc := 1, sizeQuery := Except.error "unused" }

/-- A trial whose subprocess exits 0 but leaves no artifact behind, so the
`os.path.getsize` call on the success path raises. -/
def bNoFile : TrialBeh :=
  { proc := ProcBeh.completes 0 "", dur := 5, durTimeout := 0, durExc := 6,
    sizeQuery := Except.error "[Errno 2] No such file or directory: './output/baseline.ply'" }

/-- A 600-character diagnostic message, longer than every truncation bound
appearing in the source (200 for console, 500 for the report). -/
def longErr : String := String.mk (List.replicate 600 'a')

/-- A trial whose subprocess exits 1 with the long diagnostic on stderr. -/
def bLongErr : TrialBeh :=
  { proc := ProcBeh.completes 1 longErr, dur := 7, durTimeout := 0, durExc := 0,
    sizeQuery := Except.ok 0 }

/-- A trial whose subprocess exits 1 with a short diagnostic. -/
def bFail : TrialBeh :=
  { proc := ProcBeh.completes 1 "boom", dur := 2, durTimeout := 0, durExc := 0,
    sizeQuery := Except.ok 0 }

/-- A synthetic artifact whose header declares `element vertex 12345`
before the `end_header` terminator. -/
def goodFile : List Nat :=
  asciiBytes "ply\nformat ascii 1.0\nelement vertex 12345\nend_header\n"

/-- A malformed artifact: five bytes, no `end_header` line, well under the
10000-byte budget. -/
def shortFile : List Nat := asciiBytes "hello"

/-- An analyzed model whose name contains two different category keys. -/
def mShSize : ModelInfo :=
  { name := "sh_size_1", file_path := "./output/sh_size_1.ply",
    size_mb := 1, num_points := 0 }

/-- An analyzed model matching exactly one category key. -/
def mScale : ModelInfo :=
  { name := "scale_2", file_path := "./output/scale_2.ply",
    size_mb := 2, num_points := 100 }

/-! ## Helper lemmas -/

/-- Reading every index of a list back through `getD` reproduces the list. -/
theorem map_getD_range {α : Type} : ∀ (l : List α) (d : α),
    (List.range l.length).map (fun i => l.getD i d) = l
  | [], _ => rfl
  | a :: t, d => by
    rw [List.length_cons, List.range_succ_eq_map, List.map_cons, List.map_map]
    have h : ((fun i => (a :: t).getD i d) ∘ Nat.succ) = fun i => t.getD i d := rfl
    rw [h, map_getD_range t d]
    rfl

/-- The round-robin table realises `index mod poolSize` at every index. -/
theorem gpu_assignments_getD (n maxw i : Nat) (h : i < n) :
    (gpu_assignments n maxw).getD i 0 = i % maxw := by
  unfold gpu_assignments
  rw [List.getD_eq_getElem _ _ (by simpa using h)]
  simp

/-- `run_single_test` copies the spec, the device slot and the derived
artifact path into the outcome in every branch. -/
theorem run_single_test_fields (cfg : Config) (tc : TestCase) (g : Nat) (b : TrialBeh) :
    (run_single_test cfg tc g b).test_case = tc ∧
    (run_single_test cfg tc g b).gpu_id = g ∧
    (run_single_test cfg tc g b).output_file = path_join cfg.output_dir (tc.name ++ ".ply") := by
  obtain ⟨p, d1, d2, d3, sq⟩ := b
  cases p with
  | completes rc stderr =>
    by_cases hrc : rc = 0
    · cases sq <;> simp [run_single_test, hrc]
    · simp [run_single_test, hrc]
  | timesOut => simp [run_single_test]
  | raisesLaunch e => simp [run_single_test]

/-- The name/success key of an outcome does not depend on the device slot
passed to `run_single_test`. -/
theorem outcomeKey_gpu_indep (cfg : Config) (tc : TestCase) (g g' : Nat) (b : TrialBeh) :
    outcomeKey (run_single_test cfg tc g b) = outcomeKey (run_single_test cfg tc g' b) := by
  obtain ⟨p, d1, d2, d3, sq⟩ := b
  cases p with
  | completes rc stderr =>
    by_cases hrc : rc = 0
    · cases sq <;> simp [run_single_test, outcomeKey, hrc]
    · simp [run_single_test, outcomeKey, hrc]
  | timesOut => simp [run_single_test, outcomeKey]
  | raisesLaunch e => simp [run_single_test, outcomeKey]

/-- `run_all_tests` never returns an error: the serial branch constructs no
pool, and the pooled branch is only reached with `max_workers ≥ 2`, where
the pool-size validation succeeds. -/
theorem run_all_tests_eq_ok (cfg : Config) (specs : List TestCase) (beh : Nat → TrialBeh)
    (fault : Nat → Option String) (order : List Nat) :
    run_all_tests cfg specs beh fault order =
      Except.ok (if cfg.max_workers ≤ 1 then run_serial cfg specs beh
                 else run_parallel cfg specs beh fault order) := by
  by_cases h : cfg.max_workers ≤ 1
  · simp [run_all_tests, h]
  · have h0 : cfg.max_workers ≠ 0 := by omega
    simp [run_all_tests, make_pool, h, h0]

/-- Both branches of `parallel_outcome` record the submitted spec. -/
theorem parallel_outcome_test_case (cfg : Config) (specs : List TestCase)
    (beh : Nat → TrialBeh) (fault : Nat → Option String) (i : Nat) :
    (parallel_outcome cfg specs beh fault i).test_case = specs.getD i defaultCase := by
  unfold parallel_outcome
  cases fault i with
  | none => exact (run_single_test_fields ..).1
  | some e => rfl

/-- Both branches of `parallel_outcome` record the pre-assigned slot. -/
theorem parallel_outcome_gpu (cfg : Config) (specs : List TestCase)
    (beh : Nat → TrialBeh) (fault : Nat → Option String) (i : Nat) :
    (parallel_outcome cfg specs beh fault i).gpu_id =
      (gpu_assignments specs.length cfg.max_workers).getD i 0 := by
  unfold parallel_outcome
  cases fault i with
  | none => exact (run_single_test_fields ..).2.1
  | some e => rfl

/-- The serial branch maps spec indices to outcomes; its spec projection is
the input sequence itself. -/
theorem run_serial_map_test_case (cfg : Config) (specs : List TestCase)
    (beh : Nat → TrialBeh) :
    (run_serial cfg specs beh).map (fun r => r.test_case) = specs := by
  unfold run_serial
  rw [List.map_map]
  have h : ((fun r => r.test_case) ∘ fun i =>
      run_single_test cfg (specs.getD i defaultCase) 0 (beh i)) =
      fun i => specs.getD i defaultCase :=
    funext fun i => (run_single_test_fields ..).1
  rw [h, map_getD_range]

/-- The pooled branch's spec projection is a permutation of the input
sequence whenever the completion order permutes the submission indices. -/
theorem run_parallel_map_test_case (cfg : Config) (specs : List TestCase)
    (beh : Nat → TrialBeh) (fault : Nat → Option String) (order : List Nat)
    (hord : order.Perm (List.range specs.length)) :
    ((run_parallel cfg specs beh fault order).map (fun r => r.test_case)).Perm specs := by
  unfold run_parallel
  rw [List.map_map]
  have h : ((fun r => r.test_case) ∘ parallel_outcome cfg specs beh fault) =
      fun i => specs.getD i defaultCase :=
    funext fun i => parallel_outcome_test_case ..
  rw [h]
  have := hord.map fun i => specs.getD i defaultCase
  rwa [map_getD_range] at this

/-- The serial branch yields one outcome per spec index. -/
theorem run_serial_length (cfg : Config) (specs : List TestCase) (beh : Nat → TrialBeh) :
    (run_serial cfg specs beh).length = specs.length := by
  simp [run_serial]

/-- Position `j` of the serial branch holds the outcome of trial `j`. -/
theorem run_serial_getD (cfg : Config) (specs : List TestCase) (beh : Nat → TrialBeh)
    (j : Nat) (hj : j < specs.length) :
    (run_serial cfg specs beh).getD j defaultResult =
      run_single_test cfg (specs.getD j defaultCase) 0 (beh j) := by
  unfold run_serial
  rw [List.getD_eq_getElem _ _ (by simpa using hj)]
  simp

/-- Position `j` of the pooled branch holds the outcome of the trial that
completed `j`-th, namely submission index `order[j]`. -/
theorem run_parallel_getD (cfg : Config) (specs : List TestCase) (beh : Nat → TrialBeh)
    (fault : Nat → Option String) (order : List Nat) (j : Nat) (hj : j < order.length) :
    (run_parallel cfg specs beh fault order).getD j defaultResult =
      parallel_outcome cfg specs beh fault (order.getD j 0) := by
  unfold run_parallel
  rw [List.getD_eq_getElem _ _ (by simpa using hj)]
  rw [List.getElem_map]
  rw [List.getD_eq_getElem _ _ hj]

/-- Once the file is exhausted, `readline` returns the empty line forever,
the accumulated header stops growing, and — as long as the header is still
within the byte budget — neither exit condition of the scanning loop can
ever fire. -/
theorem headerLoop_eof : ∀ (fuel : Nat) (header : List Nat), header.length ≤ 10000 →
    headerLoop fuel [] header = none
  | 0, _, _ => rfl
  | fuel + 1, header, hh => by
    have hstep : readline [] = ([], []) := rfl
    have hcontains : listContainsSeg endHeaderBytes ([] : List Nat) = false := by decide
    simp only [headerLoop, hstep, hcontains, List.append_nil, Bool.false_eq_true, if_false]
    rw [if_neg (by omega : ¬ 10000 < header.length)]
    exact headerLoop_eof fuel header hh

/-- On the five-byte terminator-free file the loop reads the whole file in
its first iteration and then spins at end of file: no fuel bound ever sees
it exit. -/
theorem headerLoop_short (fuel : Nat) : headerLoop fuel shortFile [] = none := by
  cases fuel with
  | zero => rfl
  | succ n =>
    have hstep : headerLoop (n + 1) shortFile [] = headerLoop n [] shortFile := rfl
    rw [hstep]
    exact headerLoop_eof n shortFile (by decide)

/-! ## Claim theorems -/

/-- C10: every terminal branch of `run_single_test` (zero exit, non-zero
exit, timeout, launch exception) records `output_file` as the derived path
`os.path.join(outputDir, name + ".ply")` and `gpu_id` as the device slot the
call was invoked with — failed and timed-out outcomes carry them too. -/
theorem C10_outcome_carries_path_and_slot (cfg : Config) (tc : TestCase)
    (gpu : Nat) (b : TrialBeh) :
    (run_single_test cfg tc gpu b).output_file =
      path_join cfg.output_dir (tc.name ++ ".ply") ∧
    (run_single_test cfg tc gpu b).gpu_id = gpu :=
  ⟨(run_single_test_fields ..).2.2, (run_single_test_fields ..).2.1⟩

/-- C2: `run_single_test` is a total function (it always returns a
`TestResult`, propagating no exception); a timed-out subprocess produces a
failed outcome whose error detail is exactly `"Timeout"`, and a
launch-level failure produces a failed outcome carrying the failure
message. -/
theorem C2_executor_timeout_and_launch (cfg : Config) (tc : TestCase)
    (gpu : Nat) (b : TrialBeh) :
    (b.proc = ProcBeh.timesOut →
      (run_single_test cfg tc gpu b).success = false ∧
      (run_single_test cfg tc gpu b).error_msg = some "Timeout") ∧
    (∀ e, b.proc = ProcBeh.raisesLaunch e →
      (run_single_test cfg tc gpu b).success = false ∧
      (run_single_test cfg tc gpu b).error_msg = some e) := by
  refine ⟨fun h => ?_, fun e h => ?_⟩ <;> simp [run_single_test, h]

/-- Witness for C2 at concrete inputs: a timeout trial and a failed launch. -/
theorem C2_executor_timeout_and_launch_witness :
    ((run_single_test cfg0 tc0 1 bTimeout).success = false ∧
     (run_single_test cfg0 tc0 1 bTimeout).error_msg = some "Timeout") ∧
    ((run_single_test cfg0 tc0 0 bLaunch).success = false ∧
     (run_single_test cfg0 tc0 0 bLaunch).error_msg =
       some "[Errno 2] No such file or directory: './opensplat'") :=
  ⟨(C2_executor_timeout_and_launch cfg0 tc0 1 bTimeout).1 rfl,
   (C2_executor_timeout_and_launch cfg0 tc0 0 bLaunch).2 _ rfl⟩

/-- C5 counterexample: a subprocess that exits with status 0 but leaves no
artifact file behind makes the `os.path.getsize` call inside the `try`
block raise, so control reaches the generic handler and the outcome is
failed — refuting "zero exit status implies succeeded = true". -/
theorem C5_counterexample_zero_exit_failed :
    bNoFile.proc = ProcBeh.completes 0 "" ∧
    (run_single_test cfg0 tc0 0 bNoFile).success = false ∧
    (run_single_test cfg0 tc0 0 bNoFile).error_msg =
      some "[Errno 2] No such file or directory: './output/baseline.ply'" :=
  ⟨rfl, rfl, rfl⟩

/-- C5 as amended: when the subprocess exits with status 0 and the artifact
size query on the derived output path succeeds, the outcome has
`success = true`, `output_file` equal to the derived path, and `duration`
equal to the wall time measured when the subprocess completed. -/
theorem C5_success_branch (cfg : Config) (tc : TestCase) (gpu : Nat) (b : TrialBeh)
    (stderr : String) (n : Nat)
    (hb : b.proc = ProcBeh.completes 0 stderr) (hq : b.sizeQuery = Except.ok n) :
    (run_single_test cfg tc gpu b).success = true ∧
    (run_single_test cfg tc gpu b).output_file =
      path_join cfg.output_dir (tc.name ++ ".ply") ∧
    (run_single_test cfg tc gpu b).duration = b.dur := by
  simp [run_single_test, hb, hq]

/-- Witness for C5 at a concrete succeeding trial. -/
theorem C5_success_branch_witness :
    (run_single_test cfg0 tc0 0 bOk).success = true ∧
    (run_single_test cfg0 tc0 0 bOk).output_file =
      path_join cfg0.output_dir (tc0.name ++ ".ply") ∧
    (run_single_test cfg0 tc0 0 bOk).duration = bOk.dur :=
  C5_success_branch cfg0 tc0 0 bOk "" 42 rfl rfl

/-- C6 counterexample: on a non-zero exit the stored `error_msg` is the
full captured stderr — a 600-character diagnostic is stored at length 600,
which exceeds both fixed truncation bounds of the source (200 for the
console line, 500 for the report), refuting "the stored errorDetail never
exceeds that fixed bound". -/
theorem C6_counterexample_unbounded_storage :
    bLongErr.proc = ProcBeh.completes 1 longErr ∧
    (run_single_test cfg0 tc0 0 bLongErr).error_msg = some longErr ∧
    longErr.length = 600 ∧ ¬ longErr.length ≤ 500 ∧ ¬ longErr.length ≤ 200 := by
  have hlen : longErr.length = 600 := by
    show (List.replicate 600 'a').length = 600
    rw [List.length_replicate]
  exact ⟨rfl, rfl, hlen, by omega, by omega⟩

/-- C6 as amended: on a non-zero exit the outcome is failed and stores the
full captured stderr (or `"Unknown error"` when stderr is empty); the
fixed 500-character bound applies to the error detail as rendered into the
report by `generate_report`, whose text never exceeds that bound. -/
theorem C6_nonzero_exit_detail (cfg : Config) (tc : TestCase) (gpu : Nat) (b : TrialBeh)
    (rc : Int) (stderr : String)
    (hb : b.proc = ProcBeh.completes rc stderr) (hrc : rc ≠ 0) :
    (run_single_test cfg tc gpu b).success = false ∧
    (run_single_test cfg tc gpu b).error_msg =
      some (if stderr ≠ "" then stderr else "Unknown error") ∧
    (report_error_detail (run_single_test cfg tc gpu b)).length ≤ 500 := by
  have hmsg : (run_single_test cfg tc gpu b).error_msg =
      some (if stderr ≠ "" then stderr else "Unknown error") := by
    simp [run_single_test, hb, hrc]
  have he0 : (if stderr ≠ "" then stderr else "Unknown error") ≠ "" := by
    by_cases hs : stderr = ""
    · simp [hs]
    · simp [hs]
  refine ⟨by simp [run_single_test, hb, hrc], hmsg, ?_⟩
  have hrep : report_error_detail (run_single_test cfg tc gpu b) =
      String.mk ((if stderr ≠ "" then stderr else "Unknown error").toList.take 500) := by
    simp only [report_error_detail, hmsg]
    rw [if_pos he0]
  rw [hrep]
  have hlen : (String.mk ((if stderr ≠ "" then stderr else "Unknown error").toList.take 500)).length
      = ((if stderr ≠ "" then stderr else "Unknown error").toList.take 500).length := rfl
  rw [hlen, List.length_take]
  exact Nat.min_le_left _ _

/-- Witness for C6 as amended, at a concrete failing trial. -/
theorem C6_nonzero_exit_detail_witness :
    (run_single_test cfg0 tc0 0 bFail).success = false ∧
    (run_single_test cfg0 tc0 0 bFail).error_msg =
      some (if ("boom" : String) ≠ "" then "boom" else "Unknown error") ∧
    (report_error_detail (run_single_test cfg0 tc0 0 bFail)).length ≤ 500 :=
  C6_nonzero_exit_detail cfg0 tc0 0 bFail 1 "boom" rfl (by decide)

/-- C1: for every pool size `W ≥ 1` and every submitted sequence, the
scheduler returns exactly one outcome per submitted spec (as a multiset,
whatever the completion order), a thread-level exception for one trial is
converted into a failed outcome for that trial alone, and every other
submitted trial still contributes its executor outcome — nothing aborts
the scheduler. -/
theorem C1_one_outcome_per_spec (cfg : Config) (specs : List TestCase)
    (beh : Nat → TrialBeh) (fault : Nat → Option String) (order : List Nat)
    (hW : 1 ≤ cfg.max_workers) (hord : order.Perm (List.range specs.length)) :
    ∃ rs, run_all_tests cfg specs beh fault order = Except.ok rs ∧
      rs.length = specs.length ∧
      (rs.map fun r => r.test_case).Perm specs ∧
      (∀ i e, 2 ≤ cfg.max_workers → i < specs.length → fault i = some e →
        { test_case := specs.getD i defaultCase, success := false, duration := 0,
          output_file := "", gpu_id := (gpu_assignments specs.length cfg.max_workers).getD i 0,
          error_msg := some e : TestResult } ∈ rs) ∧
      (∀ i, 2 ≤ cfg.max_workers → i < specs.length → fault i = none →
        run_single_test cfg (specs.getD i defaultCase)
          ((gpu_assignments specs.length cfg.max_workers).getD i 0) (beh i) ∈ rs) := by
  by_cases hw1 : cfg.max_workers ≤ 1
  · refine ⟨run_serial cfg specs beh, ?_, ?_, ?_, ?_, ?_⟩
    · rw [run_all_tests_eq_ok, if_pos hw1]
    · exact run_serial_length ..
    · rw [run_serial_map_test_case]
    · intro i e h2 _ _; omega
    · intro i h2 _ _; omega
  · refine ⟨run_parallel cfg specs beh fault order, ?_, ?_, ?_, ?_, ?_⟩
    · rw [run_all_tests_eq_ok, if_neg hw1]
    · show (order.map (parallel_outcome cfg specs beh fault)).length = specs.length
      rw [List.length_map, hord.length_eq, List.length_range]
    · exact run_parallel_map_test_case cfg specs beh fault order hord
    · intro i e _ hi hf
      have hmem : i ∈ order := (hord.mem_iff).2 (List.mem_range.2 hi)
      have := List.mem_map_of_mem (parallel_outcome cfg specs beh fault) hmem
      rwa [show parallel_outcome cfg specs beh fault i =
        { test_case := specs.getD i defaultCase, success := false, duration := 0,
          output_file := "", gpu_id := (gpu_assignments specs.length cfg.max_workers).getD i 0,
          error_msg := some e } by unfold parallel_outcome; rw [hf]] at this
    · intro i _ hi hf
      have hmem : i ∈ order := (hord.mem_iff).2 (List.mem_range.2 hi)
      have := List.mem_map_of_mem (parallel_outcome cfg specs beh fault) hmem
      rwa [show parallel_outcome cfg specs beh fault i =
        run_single_test cfg (specs.getD i defaultCase)
          ((gpu_assignments specs.length cfg.max_workers).getD i 0) (beh i)
        by unfold parallel_outcome; rw [hf]] at this

/-- With a pool of one, every entry of the round-robin table is slot 0. -/
theorem gpu_assignments_one (n i : Nat) : (gpu_assignments n 1).getD i 0 = 0 := by
  by_cases h : i < n
  · rw [gpu_assignments_getD _ _ _ h, Nat.mod_one]
  · rw [List.getD_eq_default]
    simp [gpu_assignments]
    omega

/-- The name/success key of an outcome depends on neither the configuration
record nor the device slot. -/
theorem outcomeKey_config_indep (cfg cfg' : Config) (tc : TestCase) (g g' : Nat)
    (b : TrialBeh) :
    outcomeKey (run_single_test cfg tc g b) = outcomeKey (run_single_test cfg' tc g' b) := by
  obtain ⟨p, d1, d2, d3, sq⟩ := b
  cases p with
  | completes rc stderr =>
    by_cases hrc : rc = 0
    · cases sq <;> simp [run_single_test, outcomeKey, hrc]
    · simp [run_single_test, outcomeKey, hrc]
  | timesOut => simp [run_single_test, outcomeKey]
  | raisesLaunch e => simp [run_single_test, outcomeKey]

/-- C3: the device slot of the trial at input index `i` is exactly
`i mod W` — the round-robin table realises the pure function
`index mod poolSize` at every index, computed up front from submission
order — and in the outcome list each position carries the slot of its own
trial's index, for every completion order. -/
theorem C3_round_robin_slots (cfg : Config) (specs : List TestCase)
    (beh : Nat → TrialBeh) (fault : Nat → Option String) (order : List Nat)
    (hW : 1 ≤ cfg.max_workers) (hord : order.Perm (List.range specs.length)) :
    (∀ i, i < specs.length →
      (gpu_assignments specs.length cfg.max_workers).getD i 0 = i % cfg.max_workers) ∧
    ∃ rs, run_all_tests cfg specs beh fault order = Except.ok rs ∧
      ∀ j, j < rs.length → ∃ i, i < specs.length ∧
        (rs.getD j defaultResult).test_case = specs.getD i defaultCase ∧
        (rs.getD j defaultResult).gpu_id = i % cfg.max_workers := by
  refine ⟨fun i hi => gpu_assignments_getD _ _ _ hi, ?_⟩
  by_cases hw1 : cfg.max_workers ≤ 1
  · have hw : cfg.max_workers = 1 := by omega
    refine ⟨run_serial cfg specs beh, by rw [run_all_tests_eq_ok, if_pos hw1], ?_⟩
    intro j hj
    rw [run_serial_length] at hj
    refine ⟨j, hj, ?_, ?_⟩
    · rw [run_serial_getD cfg specs beh j hj]
      exact (run_single_test_fields ..).1
    · rw [run_serial_getD cfg specs beh j hj, hw, Nat.mod_one]
      exact (run_single_test_fields ..).2.1
  · refine ⟨run_parallel cfg specs beh fault order,
      by rw [run_all_tests_eq_ok, if_neg hw1], ?_⟩
    intro j hj
    have hjord : j < order.length := by simpa [run_parallel] using hj
    have hi : order.getD j 0 < specs.length := by
      have hmem : order.getD j 0 ∈ order := by
        rw [List.getD_eq_getElem _ _ hjord]
        exact List.getElem_mem ..
      exact List.mem_range.1 ((hord.mem_iff).1 hmem)
    refine ⟨order.getD j 0, hi, ?_, ?_⟩
    · rw [run_parallel_getD cfg specs beh fault order j hjord]
      exact parallel_outcome_test_case ..
    · rw [run_parallel_getD cfg specs beh fault order j hjord, parallel_outcome_gpu]
      exact gpu_assignments_getD _ _ _ hi

/-- C7: with `W = 1` the scheduler takes the strictly sequential branch
(`run_all_tests` returns exactly `run_serial`), the pooled path at `W = 1`
agrees with it as an unordered collection, and — for a deterministic
executor, i.e. per-trial behaviour depending only on the trial index —
running the same sequence at `W = 1` and at `W = 4` yields outcome
collections with the same name/success multiset. -/
theorem C7_w1_w4_same_outcomes (cfg : Config) (specs : List TestCase)
    (beh : Nat → TrialBeh) (order1 order4 : List Nat)
    (h1 : order1.Perm (List.range specs.length))
    (h4 : order4.Perm (List.range specs.length)) :
    run_all_tests (withWorkers cfg 1) specs beh (fun _ => none) order1 =
      Except.ok (run_serial (withWorkers cfg 1) specs beh) ∧
    (run_parallel (withWorkers cfg 1) specs beh (fun _ => none) order1).Perm
      (run_serial (withWorkers cfg 1) specs beh) ∧
    ∃ rs1 rs4,
      run_all_tests (withWorkers cfg 1) specs beh (fun _ => none) order1 = Except.ok rs1 ∧
      run_all_tests (withWorkers cfg 4) specs beh (fun _ => none) order4 = Except.ok rs4 ∧
      (rs1.map outcomeKey).Perm (rs4.map outcomeKey) := by
  have hA : run_all_tests (withWorkers cfg 1) specs beh (fun _ => none) order1 =
      Except.ok (run_serial (withWorkers cfg 1) specs beh) := by
    rw [run_all_tests_eq_ok]
    rfl
  have hpo1 : parallel_outcome (withWorkers cfg 1) specs beh (fun _ => none) =
      fun i => run_single_test (withWorkers cfg 1) (specs.getD i defaultCase) 0 (beh i) :=
    funext fun i => by
      show run_single_test (withWorkers cfg 1) (specs.getD i defaultCase)
        ((gpu_assignments specs.length 1).getD i 0) (beh i) = _
      rw [gpu_assignments_one]
  have hB : (run_parallel (withWorkers cfg 1) specs beh (fun _ => none) order1).Perm
      (run_serial (withWorkers cfg 1) specs beh) := by
    unfold run_parallel
    rw [hpo1]
    exact h1.map _
  refine ⟨hA, hB, run_serial (withWorkers cfg 1) specs beh,
    run_parallel (withWorkers cfg 4) specs beh (fun _ => none) order4, hA, ?_, ?_⟩
  · rw [run_all_tests_eq_ok, if_neg (by norm_num [withWorkers])]
  · have hpo4 : (fun i => outcomeKey
        (parallel_outcome (withWorkers cfg 4) specs beh (fun _ => none) i)) =
        fun i => outcomeKey
          (run_single_test (withWorkers cfg 1) (specs.getD i defaultCase) 0 (beh i)) :=
      funext fun i => by
        show outcomeKey (run_single_test (withWorkers cfg 4) (specs.getD i defaultCase)
          ((gpu_assignments specs.length 4).getD i 0) (beh i)) = _
        exact outcomeKey_config_indep ..
    have h1map : (run_serial (withWorkers cfg 1) specs beh).map outcomeKey =
        (List.range specs.length).map fun i =>
          outcomeKey (run_single_test (withWorkers cfg 1) (specs.getD i defaultCase) 0 (beh i)) := by
      unfold run_serial
      rw [List.map_map]
      rfl
    have h4map : (run_parallel (withWorkers cfg 4) specs beh (fun _ => none) order4).map outcomeKey =
        order4.map fun i =>
          outcomeKey (run_single_test (withWorkers cfg 1) (specs.getD i defaultCase) 0 (beh i)) := by
      unfold run_parallel
      rw [List.map_map]
      show order4.map (fun i => outcomeKey
        (parallel_outcome (withWorkers cfg 4) specs beh (fun _ => none) i)) = _
      rw [hpo4]
    rw [h1map, h4map]
    exact (h4.map _).symm

/-- C9: the modelled constructor fails exactly when the output-directory
creation fails (checked once, before any trial is scheduled), pool
construction succeeds for every pool size the pooled branch can reach, and
`run_all_tests` never returns a fatal error for any configuration —
trial-scoped failures are all recovered into outcomes. -/
theorem C9_fatal_failures_only (op dp od : String) (mw tm : Nat) (mk : Except String Unit)
    (cfg : Config) (specs : List TestCase) (beh : Nat → TrialBeh)
    (fault : Nat → Option String) (order : List Nat) :
    ((∃ e, tester_init op dp od mw tm mk = Except.error e) ↔ ∃ e, mk = Except.error e) ∧
    (∀ w, 2 ≤ w → make_pool w = Except.ok ()) ∧
    (∃ rs, run_all_tests cfg specs beh fault order = Except.ok rs) := by
  refine ⟨?_, ?_, ⟨_, run_all_tests_eq_ok cfg specs beh fault order⟩⟩
  · cases mk with
    | error e => simp [tester_init]
    | ok u => simp [tester_init]
  · intro w hw
    have hne : w ≠ 0 := by omega
    simp [make_pool, hne]

/-- C4: the header scan does NOT always terminate within its byte budget.
On the five-byte terminator-free file `shortFile` the loop never exits, no
matter how many iterations it is allowed (the budget check `len(header) >
10000` cannot fire once `readline` starts returning empty lines at end of
file, contradicting the source's own "防止无限循环" guard comment); on a
well-formed header declaring `element vertex 12345` before the terminator
the parse returns 12345. -/
theorem C4_header_scan_diverges :
    (∀ fuel, parse_ply_header fuel shortFile = none) ∧
    parse_ply_header 10 goodFile = some 12345 := by
  constructor
  · intro fuel
    show (headerLoop fuel shortFile []).map findCount = none
    rw [headerLoop_short fuel]
    rfl
  · decide

/-- C8 counterexample: the categories are independent substring filters,
so the model named `sh_size_1` is a member of both the `sh_` category and
the `size_` category — two distinct non-catch-all categories — refuting
"every model appears in exactly one category / first matching category
wins". -/
theorem C8_counterexample_two_categories :
    mShSize ∈ keyGroup "sh_" [mShSize] ∧
    mShSize ∈ keyGroup "size_" [mShSize] ∧
    ("sh_" : String) ∈ groupKeys ∧ ("size_" : String) ∈ groupKeys ∧
    ("sh_" : String) ≠ "size_" ∧
    mShSize ∉ otherGroup [mShSize] := by
  refine ⟨?_, ?_, ?_, ?_, ?_, ?_⟩ <;> decide

/-- C8 as amended: the grouping is total — every analyzed model lands in at
least one category, and the catch-all holds exactly the models matched by
no substring key and absent from the combo-name list (so the catch-all is
disjoint from every named category) — but the named categories use
substring matching and are not pairwise disjoint: a model whose name
contains several keys appears in each matching category. -/
theorem C8_grouping_total (models : List ModelInfo) (m : ModelInfo)
    (hm : m ∈ models) :
    (m ∈ otherGroup models ↔ matchesAnyRule m = false) ∧
    (m ∈ otherGroup models ∨
      (∃ k, k ∈ groupKeys ∧ m ∈ keyGroup k models) ∨ m ∈ comboGroup models) := by
  constructor
  · constructor
    · intro h
      have := (List.mem_filter.1 h).2
      simpa using this
    · intro h
      exact List.mem_filter.2 ⟨hm, by simp [h]⟩
  · by_cases h : matchesAnyRule m = true
    · have h' := h
      unfold matchesAnyRule at h'
      rcases Bool.or_eq_true_iff.1 h' with h1 | h2
      · rcases List.any_eq_true.1 h1 with ⟨k, hk, hks⟩
        exact Or.inr (Or.inl ⟨k, hk, List.mem_filter.2 ⟨hm, hks⟩⟩)
      · exact Or.inr (Or.inr (List.mem_filter.2 ⟨hm, h2⟩))
    · exact Or.inl (List.mem_filter.2 ⟨hm, by simp [Bool.not_eq_true] at h; simp [h]⟩)

/-- Witness for C1: two trials on a pool of two, where the first trial's
future raises and the second completes, collected out of order. -/
theorem C1_one_outcome_per_spec_witness :
    ∃ rs, run_all_tests cfg2 [tc0, tcA] (fun _ => bOk)
        (fun i => if i = 0 then some "boom" else none) [1, 0] = Except.ok rs ∧
      rs.length = [tc0, tcA].length ∧
      (rs.map fun r => r.test_case).Perm [tc0, tcA] ∧
      (∀ i e, 2 ≤ cfg2.max_workers → i < [tc0, tcA].length →
        (if i = 0 then some "boom" else none) = some e →
        { test_case := [tc0, tcA].getD i defaultCase, success := false, duration := 0,
          output_file := "",
          gpu_id := (gpu_assignments [tc0, tcA].length cfg2.max_workers).getD i 0,
          error_msg := some e : TestResult } ∈ rs) ∧
      (∀ i, 2 ≤ cfg2.max_workers → i < [tc0, tcA].length →
        (if i = 0 then some "boom" else none) = none →
        run_single_test cfg2 ([tc0, tcA].getD i defaultCase)
          ((gpu_assignments [tc0, tcA].length cfg2.max_workers).getD i 0) bOk ∈ rs) :=
  C1_one_outcome_per_spec cfg2 [tc0, tcA] (fun _ => bOk)
    (fun i => if i = 0 then some "boom" else none) [1, 0] (by decide) (by decide)

/-- Witness for C3: two trials on a pool of two, collected out of order. -/
theorem C3_round_robin_slots_witness :
    (∀ i, i < [tc0, tcA].length →
      (gpu_assignments [tc0, tcA].length cfg2.max_workers).getD i 0 = i % cfg2.max_workers) ∧
    ∃ rs, run_all_tests cfg2 [tc0, tcA] (fun _ => bOk) (fun _ => none) [1, 0] = Except.ok rs ∧
      ∀ j, j < rs.length → ∃ i, i < [tc0, tcA].length ∧
        (rs.getD j defaultResult).test_case = [tc0, tcA].getD i defaultCase ∧
        (rs.getD j defaultResult).gpu_id = i % cfg2.max_workers :=
  C3_round_robin_slots cfg2 [tc0, tcA] (fun _ => bOk) (fun _ => none) [1, 0]
    (by decide) (by decide)

/-- Witness for C7: two deterministic trials, compared between a pool of
one (in order) and a pool of four (out of order). -/
theorem C7_w1_w4_same_outcomes_witness :
    run_all_tests (withWorkers cfg0 1) [tc0, tcA] (fun _ => bOk) (fun _ => none) [0, 1] =
      Except.ok (run_serial (withWorkers cfg0 1) [tc0, tcA] (fun _ => bOk)) ∧
    (run_parallel (withWorkers cfg0 1) [tc0, tcA] (fun _ => bOk) (fun _ => none) [0, 1]).Perm
      (run_serial (withWorkers cfg0 1) [tc0, tcA] (fun _ => bOk)) ∧
    ∃ rs1 rs4,
      run_all_tests (withWorkers cfg0 1) [tc0, tcA] (fun _ => bOk) (fun _ => none) [0, 1] =
        Except.ok rs1 ∧
      run_all_tests (withWorkers cfg0 4) [tc0, tcA] (fun _ => bOk) (fun _ => none) [1, 0] =
        Except.ok rs4 ∧
      (rs1.map outcomeKey).Perm (rs4.map outcomeKey) :=
  C7_w1_w4_same_outcomes cfg0 [tc0, tcA] (fun _ => bOk) [0, 1] [1, 0] (by decide) (by decide)

/-- Witness for C8 as amended, on a singleton model set. -/
theorem C8_grouping_total_witness :
    (mScale ∈ otherGroup [mScale] ↔ matchesAnyRule mScale = false) ∧
    (mScale ∈ otherGroup [mScale] ∨
      (∃ k, k ∈ groupKeys ∧ mScale ∈ keyGroup k [mScale]) ∨ mScale ∈ comboGroup [mScale]) :=
  C8_grouping_total [mScale] mScale (by decide)

/-- Witness for C9 at concrete constructor arguments and a concrete run. -/
theorem C9_fatal_failures_only_witness :
    ((∃ e, tester_init "./opensplat" "./banana" "./output" 2 3600 (Except.ok ()) =
        Except.error e) ↔
      ∃ e, (Except.ok () : Except String Unit) = Except.error e) ∧
    (∀ w, 2 ≤ w → make_pool w = Except.ok ()) ∧
    (∃ rs, run_all_tests cfg2 [tc0, tcA] (fun _ => bOk) (fun _ => none) [0, 1] =
      Except.ok rs) :=
  C9_fatal_failures_only "./opensplat" "./banana" "./output" 2 3600 (Except.ok ())
    cfg2 [tc0, tcA] (fun _ => bOk) (fun _ => none) [0, 1]
